import Mathlib

/-!
# Verification of the ML analytics engine (backend/services/ml/analytics_engine.py)

Shallow embedding of `MLAnalyticsEngine`.  Numeric values are modelled over `ℚ`
(the Python code computes over IEEE doubles; every constant and threshold in the
source is a short decimal, and no claim depends on float rounding noise).

The three scikit-learn estimators (`StandardScaler`, `IsolationForest`,
`RandomForestClassifier`) and pandas date parsing are external libraries: their
*control-flow contracts* (when they raise, the shapes they return) are embedded
faithfully, while the *learned numerical outputs* of the two ensemble models —
inherently data/implementation dependent — are oracle function fields carried in
the model structures.  Every claim below is about the engine logic itself
(gating, thresholds, fallback control flow, sorting/truncation, rounding), not
about the learned values themselves.
-/

namespace AnalyticsEngine

/-- Failure modes that can cross the engine function boundaries.  Each
constructor names the concrete Python exception it stands for. -/
inductive EngineError
  /-- `pandas.to_datetime` raised on an unparsable date string. -/
  | dateParseError
  /-- `sklearn.exceptions.NotFittedError` from an unfitted estimator. -/
  | notFitted
  /-- `ValueError`: number of input features differs from the fitted width. -/
  | featureMismatch
  /-- `ValueError`: "Input contains NaN" from sklearn input validation. -/
  | nanInput
  /-- `ValueError`: empty input batch passed to an sklearn `fit`. -/
  | emptyInput
  /-- `IndexError` from an out-of-bounds numpy/list index. -/
  | indexError
  /-- `FileNotFoundError` from `joblib.load` on an absent artifact. -/
  | fileNotFound
  /-- Unpickling/EOF error from `joblib.load` on a corrupt artifact. -/
  | unpicklingError
  /-- I/O error from `joblib.dump` while persisting a model. -/
  | ioError
deriving DecidableEq, Repr

/-- The `event_date` field of a record as the engine sees it: absent, a string
`pandas.to_datetime` cannot parse, or a well-formed timestamp.  A parsed
timestamp is represented by `(datetime.now() - date).days`, i.e. the age of the event
in whole days (negative for future dates); the engine only ever consumes
dates through that difference and through the 90-day recency cutoff, both of
which are whole-day comparisons. -/
inductive DateField
  | missing
  | unparsable (raw : String)
  | parsed (daysAgo : Int)
deriving DecidableEq, Repr

/-- A numpy scalar inside a feature matrix: an ordinary number or NaN
(the value `pandas.NaT.days` produces for a missing date). -/
inductive FeatVal
  | num (q : ℚ)
  | nan
deriving DecidableEq, Repr

/-- One adverse-event record.  Python passes loosely-structured dicts; `Option`
fields model absent keys, and the documented per-field defaults are applied at
each access site exactly as the source expression `row.get(key, default)` does.
(The pandas distinction between a column that is absent for *every* record —
`KeyError` — and a per-record missing value is not modelled; no claim involves
batches where a whole column is missing.) -/
structure EventRecord where
  id : Option String := none
  medicine_name : Option String := none
  medicine_id : Option String := none
  severity : Option String := none
  outcome : Option String := none
  patient_age : Option Int := none
  required_hospitalization : Bool := false
  life_threatening : Bool := false
  symptoms : List String := []
  concurrent_medications : List String := []
  has_allergies : Bool := false
  event_date : DateField := .missing
deriving DecidableEq, Repr

/-- Python `str.lower()`, character by character.  (Implemented over the
character list rather than through `String.map`, whose well-founded recursion
the kernel cannot evaluate; the two agree on every string.) -/
def pyLower (s : String) : String :=
  ⟨s.data.map Char.toLower⟩

/-- Models `_encode_severity`: {mild 1, moderate 2, severe 3, life_threatening 4},
default 2, case-insensitive. -/
def encode_severity (severity : String) : ℚ :=
  let s := pyLower severity
  if s = "mild" then 1
  else if s = "moderate" then 2
  else if s = "severe" then 3
  else if s = "life_threatening" then 4
  else 2

/-- Models `_encode_outcome`: {recovered 1, recovering 2, not_recovered 3, death 4,
unknown 0}, default 0, case-insensitive. -/
def encode_outcome (outcome : String) : ℚ :=
  let s := pyLower outcome
  if s = "recovered" then 1
  else if s = "recovering" then 2
  else if s = "not_recovered" then 3
  else if s = "death" then 4
  else if s = "unknown" then 0
  else 0

/-- Models `_encode_age_group`: age<18 pediatric 1, age<65 adult 2, else elderly 3. -/
def encode_age_group (age : Int) : ℚ :=
  if age < 18 then 1
  else if age < 65 then 2
  else 3

/-- Models `(datetime.now() - pd.to_datetime(event_date)).days`:
`to_datetime` raises on an unparsable string; a missing value becomes `NaT`,
`now - NaT` is `NaT`, and `NaT.days` is NaN — so a missing date yields a NaN
feature, not an error. -/
def daysSinceEvent : DateField → Except EngineError FeatVal
  | .missing => .ok .nan
  | .unparsable _ => .error .dateParseError
  | .parsed d => .ok (.num d)

/-- One row of `_extract_event_features`: the 7-entry pattern/anomaly feature
vector of a record. -/
def eventFeatures (e : EventRecord) : Except EngineError (List FeatVal) :=
  match daysSinceEvent e.event_date with
  | .error err => .error err
  | .ok d =>
      .ok [ .num (encode_severity (e.severity.getD "mild")),
            .num (encode_outcome (e.outcome.getD "unknown")),
            .num (encode_age_group (e.patient_age.getD 0)),
            .num (if e.required_hospitalization then 1 else 0),
            .num (if e.life_threatening then 1 else 0),
            .num (e.symptoms.length : ℚ),
            d ]

/-- Models `_extract_event_features` over a whole batch: the row loop aborts with the
first date-parse failure. -/
def extractEventFeatures : List EventRecord → Except EngineError (List (List FeatVal))
  | [] => .ok []
  | e :: rest =>
    match eventFeatures e, extractEventFeatures rest with
    | .error err, _ => .error err
    | .ok _, .error err => .error err
    | .ok v, .ok vs => .ok (v :: vs)

/-- Models `sklearn.preprocessing.StandardScaler`.  Only the fitted feature width is
carried: the standardized numeric values (centering by the mean and dividing by
the — generally irrational — standard deviation) are read by no claim, so
`transform` validates exactly as sklearn does and passes the data through. -/
structure StandardScaler where
  /-- `n_features_in_`: `none` until the scaler has been fitted. -/
  nFeatures : Option Nat := none

/-- Models `scaler.transform(v)`: `NotFittedError` when unfitted, `ValueError` on a
feature-count mismatch or NaN input; otherwise succeeds. -/
def StandardScaler.transform (s : StandardScaler) (v : List FeatVal) :
    Except EngineError (List FeatVal) :=
  match s.nFeatures with
  | none => .error .notFitted
  | some n =>
    if v.length ≠ n then .error .featureMismatch
    else if FeatVal.nan ∈ v then .error .nanInput
    else .ok v

/-- Models `scaler.fit_transform(X)`: a destructive refit from the batch alone (the
prior state is irrelevant), rejecting NaN entries and empty input. -/
def StandardScaler.fitTransform (X : List (List FeatVal)) :
    Except EngineError (StandardScaler × List (List FeatVal)) :=
  if ∃ row ∈ X, FeatVal.nan ∈ row then .error .nanInput
  else
    match X with
    | [] => .error .emptyInput
    | row :: _ => .ok ({ nFeatures := some row.length }, X)

/-- Pads/truncates a list to length exactly `n`.  Used to embed the sklearn
shape guarantee that per-sample outputs have exactly one entry per input row
(and per-class outputs one entry per class). -/
def padTo (n : Nat) (dflt : α) (l : List α) : List α :=
  l.take n ++ List.replicate (n - l.length) dflt

/-- Models `sklearn.ensemble.IsolationForest`.  `fit_predict` / `score_samples` are
learned, data-dependent outputs: they are oracle fields, coerced to the shape
sklearn guarantees (one entry per sample; predictions in {-1, 1}). -/
structure IsolationForest where
  predictFn : List (List FeatVal) → List Int
  scoreFn : List (List FeatVal) → List ℚ

/-- Models `forest.fit_predict(X)`: one ±1 label per sample. -/
def IsolationForest.fitPredict (f : IsolationForest) (X : List (List FeatVal)) : List Int :=
  padTo X.length 1 (f.predictFn X)

/-- Models `forest.score_samples(X)`: one anomaly score per sample (lower = more
anomalous). -/
def IsolationForest.scoreSamples (f : IsolationForest) (X : List (List FeatVal)) : List ℚ :=
  padTo X.length 0 (f.scoreFn X)

/-- Models `forest.fit(X)`: refits the learned internals, which the oracle fields
abstract; no observable state consumed by any claim changes. -/
def IsolationForest.fit (f : IsolationForest) (_X : List (List FeatVal)) : IsolationForest := f

/-- Models `sklearn.ensemble.RandomForestClassifier`.  After `fit`, sklearn records
the input width `n_features_in_` and the number of distinct training labels
`n_classes_`; `predict_proba` returns one probability column per class.  The
probability values themselves are a learned output: an oracle field. -/
structure RandomForestClassifier where
  /-- `some (n_features_in_, n_classes_)` once fitted, `none` before. -/
  fitted : Option (Nat × Nat) := none
  probaFn : List FeatVal → List ℚ := fun _ => []

/-- Models `clf.fit(X, y)`: records the feature width and the number of distinct
labels.  (Callers in this file reach `fit` only after `fit_transform` has
already rejected empty or NaN input, mirroring the source call order.) -/
def RandomForestClassifier.fit (c : RandomForestClassifier)
    (X : List (List FeatVal)) (y : List Nat) : RandomForestClassifier :=
  { c with fitted := some ((X.headD []).length, y.dedup.length) }

/-- Models `clf.predict_proba([v])[0]`: `NotFittedError` when unfitted, `ValueError`
on width mismatch or NaN, otherwise a probability row of length exactly
`n_classes_`. -/
def RandomForestClassifier.predictProba (c : RandomForestClassifier) (v : List FeatVal) :
    Except EngineError (List ℚ) :=
  match c.fitted with
  | none => .error .notFitted
  | some (nf, nc) =>
    if v.length ≠ nf then .error .featureMismatch
    else if FeatVal.nan ∈ v then .error .nanInput
    else .ok (padTo nc 0 (c.probaFn v))

/-- The mutable engine state: `self.anomaly_detector`, `self.risk_classifier`,
`self.scaler`. -/
structure Engine where
  anomaly_detector : IsolationForest
  risk_classifier : RandomForestClassifier
  scaler : StandardScaler

/-- A fresh `IsolationForest(contamination=0.1, random_state=42,
n_estimators=100)`.  The oracle outputs of an untrained forest are never
consulted before a refit, so canonical constants stand in. -/
def freshIsolationForest : IsolationForest :=
  { predictFn := fun X => List.replicate X.length 1,
    scoreFn := fun X => List.replicate X.length 0 }

/-- A fresh `RandomForestClassifier(n_estimators=100, max_depth=10,
random_state=42)`: unfitted. -/
def freshRandomForestClassifier : RandomForestClassifier :=
  { fitted := none, probaFn := fun _ => [] }

/-- Models `initialize_models`, together with the fresh `StandardScaler()`
assigned in `__init__`: all three components fresh and unfitted. -/
def initializedEngine : Engine :=
  { anomaly_detector := freshIsolationForest,
    risk_classifier := freshRandomForestClassifier,
    scaler := {} }

/-- A persisted artifact slot as `joblib.load` can find it. -/
inductive Artifact (α : Type)
  | absent
  | corrupt
  | stored (a : α)

/-- The `models/` directory: the three pickle files `load_models` reads. -/
structure ModelStore where
  anomaly_detector_pkl : Artifact IsolationForest
  risk_classifier_pkl : Artifact RandomForestClassifier
  scaler_pkl : Artifact StandardScaler

/-- Models `joblib.load`: `FileNotFoundError` on an absent file, an unpickling error
on a corrupt one. -/
def joblib_load : Artifact α → Except EngineError α
  | .absent => .error .fileNotFound
  | .corrupt => .error .unpicklingError
  | .stored a => .ok a

/-- Models `__init__` + `load_models`: attempt the three loads in order inside one
`try`; only `FileNotFoundError` is caught (by `initialize_models`, leaving the
`__init__`-fresh scaler in place); any other load failure propagates out of
construction. -/
def engine_init (store : ModelStore) : Except EngineError Engine :=
  match joblib_load store.anomaly_detector_pkl with
  | .error .fileNotFound => .ok initializedEngine
  | .error err => .error err
  | .ok ad =>
    match joblib_load store.risk_classifier_pkl with
    | .error .fileNotFound => .ok initializedEngine
    | .error err => .error err
    | .ok rc =>
      match joblib_load store.scaler_pkl with
      | .error .fileNotFound => .ok initializedEngine
      | .error err => .error err
      | .ok sc => .ok { anomaly_detector := ad, risk_classifier := rc, scaler := sc }

/-- Round half to even to the nearest integer (the mode of Python `round`). -/
def roundHalfEven (q : ℚ) : Int :=
  if q - ⌊q⌋ < 1/2 then ⌊q⌋
  else if q - ⌊q⌋ > 1/2 then ⌊q⌋ + 1
  else if ⌊q⌋ % 2 = 0 then ⌊q⌋ else ⌊q⌋ + 1

/-- Python `round(x, 3)`. -/
def roundTo3 (q : ℚ) : ℚ :=
  (roundHalfEven (q * 1000) : ℚ) / 1000

/-- Python `max(xs)` over a nonempty numeric list (callers guarantee
nonemptiness; on `[]` Python raises, a case no call site can reach). -/
def maxList (l : List ℚ) : ℚ :=
  l.foldl max (l.headD 0)

/-- The result of `predict_risk_score`: `method` is `some "rule_based"` on the
fallback path and absent (`none`) on the ML path; `confidence` is present only
on the ML path. -/
structure RiskAssessment where
  risk_score : ℚ
  risk_level : String
  confidence : Option ℚ := none
  method : Option String := none
  recommendations : List String
deriving DecidableEq, Repr

/-- Models `_classify_risk_level`: ≥0.7 critical, ≥0.5 high, ≥0.3 moderate, else low. -/
def classify_risk_level (risk_score : ℚ) : String :=
  if risk_score ≥ 0.7 then "critical"
  else if risk_score ≥ 0.5 then "high"
  else if risk_score ≥ 0.3 then "moderate"
  else "low"

/-- Models `_generate_risk_recommendations`: the fixed list for each score band. -/
def generate_risk_recommendations (risk_score : ℚ) : List String :=
  if risk_score ≥ 0.7 then
    [ "Immediate medical attention required",
      "Consider hospitalization",
      "Report to regulatory authority urgently",
      "Document all symptoms and interventions" ]
  else if risk_score ≥ 0.5 then
    [ "Close medical monitoring required",
      "Consider discontinuing medication",
      "Report to healthcare provider promptly",
      "Document progression of symptoms" ]
  else if risk_score ≥ 0.3 then
    [ "Monitor symptoms closely",
      "Contact healthcare provider if symptoms worsen",
      "Report event to regulatory authority",
      "Keep detailed symptom diary" ]
  else
    [ "Continue monitoring",
      "Report if symptoms persist or worsen",
      "Document event details" ]

/-- Models `_calculate_rule_based_risk`: the additive fallback score, clamped above
by `min(score, 1.0)`. -/
def calculate_rule_based_risk (e : EventRecord) : ℚ :=
  let score : ℚ := 0
  let severity := pyLower (e.severity.getD "mild")
  let score := score +
    (if severity = "life_threatening" then 0.4
     else if severity = "severe" then 0.3
     else if severity = "moderate" then 0.15
     else 0)
  let score := score + (if e.required_hospitalization then 0.25 else 0)
  let score := score + (if e.life_threatening then 0.2 else 0)
  let age := e.patient_age.getD 0
  let score := score + (if age < 5 ∨ age > 75 then 0.1 else 0)
  let score := score + (if e.symptoms.length > 5 then 0.1 else 0)
  min score 1

/-- The 7-entry risk feature vector of `predict_risk_score` (distinct layout
from the pattern/anomaly vector: outcome and recency are excluded, concurrent
medications and allergies included). -/
def riskFeatures (e : EventRecord) : List FeatVal :=
  [ .num (encode_severity (e.severity.getD "mild")),
    .num (encode_age_group (e.patient_age.getD 0)),
    .num (if e.required_hospitalization then 1 else 0),
    .num (if e.life_threatening then 1 else 0),
    .num (e.symptoms.length : ℚ),
    .num (e.concurrent_medications.length : ℚ),
    .num (if e.has_allergies then 1 else 0) ]

/-- The body of the `try:` block of `predict_risk_score`: `predict_proba`, then the
class-1 probability `risk_probability[1]` (an `IndexError` when the classifier
knows fewer than two classes), then the ML-path assessment.  Note the dict
stores `round(risk_score, 3)` but classifies and recommends on the unrounded
score. -/
def mlTry (eng : Engine) (features_normalized : List FeatVal) :
    Except EngineError RiskAssessment :=
  match eng.risk_classifier.predictProba features_normalized with
  | .error err => .error err
  | .ok risk_probability =>
    match risk_probability.get? 1 with
    | none => .error .indexError
    | some risk_score =>
        .ok { risk_score := roundTo3 risk_score,
              risk_level := classify_risk_level risk_score,
              confidence := some (roundTo3 (maxList risk_probability)),
              method := none,
              recommendations := generate_risk_recommendations risk_score }

/-- The rule-based fallback assessment built inside the `except:` clause. -/
def fallbackAssessment (e : EventRecord) : RiskAssessment :=
  let rule_based_score := calculate_rule_based_risk e
  { risk_score := rule_based_score,
    risk_level := classify_risk_level rule_based_score,
    confidence := none,
    method := some "rule_based",
    recommendations := generate_risk_recommendations rule_based_score }

/-- Models `predict_risk_score`.  The scaler `transform` sits *before* the
`try:`/`except:` pair, so its failures propagate to the caller; only failures
from the `try:` body (classifier faults, the class-1 index) are swallowed into
the rule-based fallback. -/
def predict_risk_score (eng : Engine) (event_data : EventRecord) :
    Except EngineError RiskAssessment :=
  match eng.scaler.transform (riskFeatures event_data) with
  | .error err => .error err
  | .ok features_normalized =>
    match mlTry eng features_normalized with
    | .ok assessment => .ok assessment
    | .error _ => .ok (fallbackAssessment event_data)

/-- The summary dict returned by `train_models`.  The resubstitution accuracy
`risk_classifier.score(X, y)` is a learned output read by no claim and is
omitted. -/
structure TrainSummary where
  training_samples : Nat
  anomaly_detector_trained : Bool := true
  risk_classifier_trained : Bool := true
deriving DecidableEq, Repr

/-- The binary training label of one record:
`severity in {severe, life_threatening} or required_hospitalization == True`
(exact, case-sensitive matches, as `Series.isin` performs). -/
def riskLabel (e : EventRecord) : Nat :=
  if e.severity = some "severe" ∨ e.severity = some "life_threatening"
      ∨ e.required_hospitalization then 1 else 0

/-- Models `train_models`: extract pattern features, derive labels, destructively
refit the scaler, fit both models, then persist all three artifacts with
`joblib.dump` — a dump failure (`dump_ok = false`) is not caught and surfaces
to the caller. -/
def train_models (eng : Engine) (training_data : List EventRecord) (dump_ok : Bool) :
    Except EngineError (Engine × TrainSummary) :=
  match extractEventFeatures training_data with
  | .error err => .error err
  | .ok X =>
    let y := training_data.map riskLabel
    match StandardScaler.fitTransform X with
    | .error err => .error err
    | .ok (scaler2, X_normalized) =>
      let ad := eng.anomaly_detector.fit X_normalized
      let clf := eng.risk_classifier.fit X_normalized y
      if dump_ok then
        .ok ({ anomaly_detector := ad, risk_classifier := clf, scaler := scaler2 },
             { training_samples := training_data.length })
      else .error .ioError

/-- Models the pandas mean of the patient_age column: pandas skips missing values, so this
is the mean of the *present* ages.  (`_explain_anomaly` only reaches it when
the current event itself contributes an age, so the denominator is nonzero at
every call site.) -/
def batchMeanAge (all_events : List EventRecord) : ℚ :=
  let ages := all_events.filterMap (fun e => e.patient_age)
  (ages.map (fun a => (a : ℚ))).sum / (ages.length : ℚ)

/-- Python string formatting of the average age with 0 decimal places:
round half to even to an integer and print it.
(The `"-0"` Python prints for tiny negative values cannot arise: patient ages
are non-negative, so every batch mean age is non-negative.) -/
def fmtAvgAge (avg : ℚ) : String :=
  toString (roundHalfEven avg)

/-- Models `_explain_anomaly`.  The age comparison is guarded by the
*truthiness* of the patient_age value: a missing age and an age of exactly 0
both skip the check.  The outcome comparison is exact (no default, no
lowercasing). -/
def explain_anomaly (event : EventRecord) (all_events : List EventRecord) : String :=
  let ageReasons : List String :=
    match event.patient_age with
    | some a =>
      if a ≠ 0 then
        let avg_age := batchMeanAge all_events
        if |(a : ℚ) - avg_age| > 20 then
          ["Unusual age (" ++ toString a ++ " vs avg " ++ fmtAvgAge avg_age ++ ")"]
        else []
      else []
    | none => []
  let severity := pyLower (event.severity.getD "")
  let sevReasons : List String :=
    if severity = "life_threatening" then ["Life-threatening severity"] else []
  let outcomeReasons : List String :=
    if event.outcome = some "death" then ["Fatal outcome"] else []
  let symptomReasons : List String :=
    if event.symptoms.length > 8 then
      ["High number of symptoms (" ++ toString event.symptoms.length ++ ")"]
    else []
  let reasons := ageReasons ++ sevReasons ++ outcomeReasons ++ symptomReasons
  if reasons.isEmpty then "Statistical outlier"
  else String.intercalate "; " reasons

/-- One entry of the `anomalies` list returned by `detect_anomalies`. -/
structure AnomalyEntry where
  event_id : Option String
  medicine_name : Option String
  severity : Option String
  anomaly_score : ℚ
  reason : String
deriving DecidableEq, Repr

/-- The dict returned by `detect_anomalies`: either the insufficient-data
shape (`anomalies` empty, plus a message) or the full report. -/
inductive AnomalyResult
  | insufficient (anomalies : List AnomalyEntry)
  | report (total_events anomalies_detected : Nat) (anomaly_rate : ℚ)
      (anomalies : List AnomalyEntry)
deriving DecidableEq, Repr

/-- The `anomalies` list of either result shape. -/
def AnomalyResult.anomalies : AnomalyResult → List AnomalyEntry
  | .insufficient l => l
  | .report _ _ _ l => l

/-- The `anomalies_detected` field (absent from the insufficient shape). -/
def AnomalyResult.detectedCount : AnomalyResult → Option Nat
  | .insufficient _ => none
  | .report _ d _ _ => some d

/-- The `anomaly_rate` field (absent from the insufficient shape). -/
def AnomalyResult.rate : AnomalyResult → Option ℚ
  | .insufficient _ => none
  | .report _ _ r _ => some r

/-- The `total_events` field (absent from the insufficient shape). -/
def AnomalyResult.totalEvents : AnomalyResult → Option Nat
  | .insufficient _ => none
  | .report t _ _ _ => some t

/-- The anomaly entry built for one flagged event. -/
def mkAnomalyEntry (event : EventRecord) (score : ℚ) (all_events : List EventRecord) :
    AnomalyEntry :=
  { event_id := event.id,
    medicine_name := event.medicine_name,
    severity := event.severity,
    anomaly_score := score,
    reason := explain_anomaly event all_events }

/-- Models `detect_anomalies`.  `fit_predict` and `score_samples` return exactly one
entry per event, so the source loop over `enumerate(zip(predictions, scores))` with
`events[idx]` is the pointwise zip of the three lists.  The final list is the
10 lowest scores of a stable ascending sort (the Python builtin `sorted` is stable, and
every stable sort by the same key produces the same list; `insertionSort` is
stable); `anomalies_detected` counts the flagged events *before* that
truncation, and `anomaly_rate` is `round(detected / total, 3)`. -/
def detect_anomalies (eng : Engine) (events : List EventRecord) :
    Except EngineError (Engine × AnomalyResult) :=
  if events.length < 20 then .ok (eng, .insufficient [])
  else
    match extractEventFeatures events with
    | .error err => .error err
    | .ok features =>
      match StandardScaler.fitTransform features with
      | .error err => .error err
      | .ok (scaler2, features_normalized) =>
        let predictions := eng.anomaly_detector.fitPredict features_normalized
        let anomaly_scores := eng.anomaly_detector.scoreSamples features_normalized
        let anomalies := (events.zip (predictions.zip anomaly_scores)).filterMap
          (fun es => if es.2.1 = -1 then some (mkAnomalyEntry es.1 es.2.2 events) else none)
        .ok ({ eng with scaler := scaler2 },
             .report events.length anomalies.length
               (roundTo3 ((anomalies.length : ℚ) / (events.length : ℚ)))
               ((anomalies.insertionSort
                  (fun a b => a.anomaly_score ≤ b.anomaly_score)).take 10))

/-- Models `_classify_signal_type`: the tier cascade, evaluated in priority order. -/
def classify_signal_type (severe_rate hosp_rate death_rate recent_rate : ℚ) : String :=
  if death_rate > 0.02 then "critical"
  else if hosp_rate > 0.15 ∨ recent_rate > 0.3 then "high"
  else if severe_rate > 0.20 then "moderate"
  else "low"

/-- Models `_generate_signal_recommendation`: the fixed string per tier
(`dict.get` default for any other key). -/
def generate_signal_recommendation (signal_type : String) : String :=
  if signal_type = "critical" then
    "URGENT: Consider immediate recall or suspension. Convene safety review committee."
  else if signal_type = "high" then
    "HIGH PRIORITY: Detailed investigation required. Consider risk mitigation measures."
  else if signal_type = "moderate" then
    "MODERATE: Monitor closely. Review product labeling and prescribing information."
  else if signal_type = "low" then
    "LOW: Continue monitoring. Consider additional post-market surveillance."
  else "Review and monitor."

/-- The dict returned by `detect_safety_signals`: insufficient data, no signal
(rates plus total only), or a detected signal with tier, metrics and
recommendation. -/
inductive SignalResult
  | insufficient
  | noSignal (medicine_id : String)
      (severe_event_rate hospitalization_rate death_rate : ℚ) (total_events : Nat)
  | signal (medicine_id : String) (signal_type : String)
      (severe_event_rate hospitalization_rate death_rate recent_severe_rate : ℚ)
      (total_events recent_events : Nat) (recommendation : String)
deriving DecidableEq, Repr

/-- Models the severe-or-worse membership test on the severity field — the
exact, case-sensitive test `Series.isin` performs (a missing severity is NaN,
never a member). -/
def isSevere (e : EventRecord) : Bool :=
  e.severity = some "severe" ∨ e.severity = some "life_threatening"

/-- Models `event_date >= datetime.now() - timedelta(days=90)`: true exactly for a
parsed date at most 90 days old (`NaT`, from a missing date, compares false). -/
def isRecent : DateField → Bool
  | .parsed d => d ≤ 90
  | _ => false

/-- Models the `pd.to_datetime` conversion of the event_date column: raises on the
first unparsable entry, passes missing entries through as `NaT`. -/
def convertDates : List EventRecord → Except EngineError Unit
  | [] => .ok ()
  | e :: rest =>
    match e.event_date with
    | .unparsable _ => .error .dateParseError
    | _ => convertDates rest

/-- Models `detect_safety_signals`.  Rates over the full history, a recent severe
rate over the last 90 days (denominator floored at 1), the four-way detection
disjunction, then the tiered signal shape; all reported rates pass through
`round(., 3)`. -/
def detect_safety_signals (medicine_id : String) (events : List EventRecord) :
    Except EngineError SignalResult :=
  if events.length < 5 then .ok .insufficient
  else
    let n : ℚ := (events.length : ℚ)
    let severe_event_rate := ((events.filter isSevere).length : ℚ) / n
    let hospitalization_rate :=
      ((events.filter (fun e => e.required_hospitalization)).length : ℚ) / n
    let death_rate := ((events.filter (fun e => e.outcome = some "death")).length : ℚ) / n
    match convertDates events with
    | .error err => .error err
    | .ok _ =>
      let recent_events := events.filter (fun e => isRecent e.event_date)
      let recent_severe_rate :=
        ((recent_events.filter isSevere).length : ℚ) / ((max recent_events.length 1 : Nat) : ℚ)
      let signal_detected :=
        severe_event_rate > 0.15 ∨ hospitalization_rate > 0.10 ∨ death_rate > 0.02 ∨
          recent_severe_rate > severe_event_rate * 1.5
      if signal_detected then
        let signal_type :=
          classify_signal_type severe_event_rate hospitalization_rate death_rate
            recent_severe_rate
        .ok (.signal medicine_id signal_type
              (roundTo3 severe_event_rate) (roundTo3 hospitalization_rate)
              (roundTo3 death_rate) (roundTo3 recent_severe_rate)
              events.length recent_events.length
              (generate_signal_recommendation signal_type))
      else
        .ok (.noSignal medicine_id (roundTo3 severe_event_rate)
              (roundTo3 hospitalization_rate) (roundTo3 death_rate) events.length)

/-- One entry of the `patterns` list of `detect_adverse_event_patterns`.
Only the fields some claim can observe are carried (`cluster_id`, `size`); the
remaining `_analyze_cluster` fields (modal severity/outcome, mean age, top-5
frequency tables, date range) are presentation-only summaries read by no
claim. -/
structure ClusterPattern where
  cluster_id : Int
  size : Nat
deriving DecidableEq, Repr

/-- The dict returned by `detect_adverse_event_patterns`. -/
inductive PatternResult
  | insufficient (patterns : List ClusterPattern)
  | report (patterns : List ClusterPattern) (total_clusters : Nat) (noise_points : Nat)
deriving DecidableEq, Repr

/-- Models `detect_adverse_event_patterns`.  `dbscan` is the oracle for
`DBSCAN(eps=0.5, min_samples=5).fit_predict` on the normalized batch; it
returns one label per sample, `-1` marking noise.  Clusters are enumerated
over the distinct labels, noise skipped. -/
def detect_adverse_event_patterns (eng : Engine)
    (dbscan : List (List FeatVal) → List Int) (events : List EventRecord) :
    Except EngineError (Engine × PatternResult) :=
  if events.length < 10 then .ok (eng, .insufficient [])
  else
    match extractEventFeatures events with
    | .error err => .error err
    | .ok features =>
      match StandardScaler.fitTransform features with
      | .error err => .error err
      | .ok (scaler2, features_normalized) =>
        let clusters := dbscan features_normalized
        let patterns := (clusters.dedup.filter (fun cid => cid ≠ -1)).map
          (fun cid =>
            { cluster_id := cid,
              size := ((events.zip clusters).filter (fun p => p.2 = cid)).length })
        .ok ({ eng with scaler := scaler2 },
             .report patterns
               (clusters.dedup.length - (if (-1) ∈ clusters then 1 else 0))
               ((clusters.filter (fun c => c = -1)).length))

/-! ## Claim-side helper definitions -/

/-- The severity contribution of the rule-based score
(+0.4 life_threatening / +0.3 severe / +0.15 moderate, case-insensitive,
default severity mild). -/
def sevContribution (e : EventRecord) : ℚ :=
  if pyLower (e.severity.getD "mild") = "life_threatening" then 0.4
  else if pyLower (e.severity.getD "mild") = "severe" then 0.3
  else if pyLower (e.severity.getD "mild") = "moderate" then 0.15
  else 0

/-- The hospitalization contribution (+0.25). -/
def hospContribution (e : EventRecord) : ℚ :=
  if e.required_hospitalization then 0.25 else 0

/-- The life-threatening-flag contribution (+0.2). -/
def ltContribution (e : EventRecord) : ℚ :=
  if e.life_threatening then 0.2 else 0

/-- The extreme-age contribution (+0.1 when age<5 or age>75, default age 0). -/
def ageContribution (e : EventRecord) : ℚ :=
  if e.patient_age.getD 0 < 5 ∨ e.patient_age.getD 0 > 75 then 0.1 else 0

/-- The symptom-count contribution (+0.1 when more than 5 symptoms). -/
def symptomContribution (e : EventRecord) : ℚ :=
  if e.symptoms.length > 5 then 0.1 else 0

/-- The classifier-side fault condition of `predict_risk_score`: untrained, fit
to a feature width other than the 7 risk features, or aware of fewer than two
classes (so that the class-1 probability `[1]` does not exist). -/
def classifierFaulty (eng : Engine) : Prop :=
  match eng.risk_classifier.fitted with
  | none => True
  | some (nf, nc) => nf ≠ 7 ∨ nc < 2

instance (eng : Engine) : Decidable (classifierFaulty eng) := by
  unfold classifierFaulty
  match eng.risk_classifier.fitted with
  | none => exact inferInstanceAs (Decidable True)
  | some (nf, nc) => exact inferInstanceAs (Decidable (nf ≠ 7 ∨ nc < 2))

/-- Claim C9 as amended: the explanation calls out exactly the applicable
conditions, where the age condition requires the age to be *present and
nonzero* in addition to deviating more than 20 years from the batch mean age;
life-threatening severity, fatal outcome and symptom count over 8 are as in the
original claim; the phrases are joined by "; ", and the explanation is exactly
"Statistical outlier" when no condition applies. -/
def explainAmendedSpec (event : EventRecord) (all_events : List EventRecord) : String :=
  let conditions : List String :=
    (match event.patient_age with
     | some a =>
        if a ≠ 0 ∧ |(a : ℚ) - batchMeanAge all_events| > 20 then
          ["Unusual age (" ++ toString a ++ " vs avg "
            ++ fmtAvgAge (batchMeanAge all_events) ++ ")"]
        else []
     | none => []) ++
    (if pyLower (event.severity.getD "") = "life_threatening" then
      ["Life-threatening severity"] else []) ++
    (if event.outcome = some "death" then ["Fatal outcome"] else []) ++
    (if event.symptoms.length > 8 then
      ["High number of symptoms (" ++ toString event.symptoms.length ++ ")"] else [])
  if conditions.isEmpty then "Statistical outlier"
  else String.intercalate "; " conditions

/-! ## Concrete data used by counterexamples and witnesses -/

/-- A record with every optional field absent. -/
def emptyEvent : EventRecord := {}

/-- A mild event with a valid date: label 0. -/
def mildEvent : EventRecord := { severity := some "mild", event_date := .parsed 10 }

/-- A training batch whose records all carry label 0 (no severe event, no
hospitalization). -/
def allMildBatch : List EventRecord := List.replicate 5 mildEvent

/-- A severe hospitalized event with a valid date: label 1. -/
def severeTrainEvent : EventRecord :=
  { severity := some "severe", required_hospitalization := true, event_date := .parsed 2 }

/-- A training batch containing both label classes. -/
def mixedBatch : List EventRecord := severeTrainEvent :: List.replicate 4 mildEvent

/-- The engine state after a successful `train_models` on `mixedBatch`. -/
def mixedTrainedEngine : Engine :=
  match train_models initializedEngine mixedBatch true with
  | .ok p => p.1
  | .error _ => initializedEngine

/-- The training summary of that same run. -/
def mixedTrainSummary : TrainSummary :=
  match train_models initializedEngine mixedBatch true with
  | .ok p => p.2
  | .error _ => { training_samples := 0 }

/-- The worked example of the spec: life-threatening severity, hospitalization,
life-threatening flag, age 80, six symptoms. -/
def severeExample : EventRecord :=
  { severity := some "life_threatening", required_hospitalization := true,
    life_threatening := true, patient_age := some 80,
    symptoms := ["nausea", "rash", "fever", "dizziness", "fatigue", "headache"] }

/-- An isolation-forest oracle that flags the first two samples, with strictly
descending scores (a possible outcome of `contamination=0.1` on 20-21
samples). -/
def flagTwoForest : IsolationForest :=
  { predictFn := fun X => (List.range X.length).map (fun i => if i < 2 then -1 else 1),
    scoreFn := fun X => (List.range X.length).map (fun i => ((X.length : ℚ) - i) / 10) }

/-- An engine carrying that forest. -/
def flagTwoEngine : Engine := { initializedEngine with anomaly_detector := flagTwoForest }

/-- A batch of 20 dated events. -/
def datedBatch20 : List EventRecord := List.replicate 20 { event_date := .parsed 1 }

/-- A batch of 21 dated events. -/
def datedBatch21 : List EventRecord := List.replicate 21 { event_date := .parsed 3 }

/-- A 20-event batch whose first record is missing its date. -/
def missingDateBatch : List EventRecord :=
  { event_date := .missing } :: List.replicate 19 { event_date := .parsed 1 }

/-- The engine and result of `detect_anomalies` on 20 dated events. -/
def anomalyRun20Engine : Engine :=
  match detect_anomalies flagTwoEngine datedBatch20 with
  | .ok p => p.1
  | .error _ => initializedEngine

/-- The result component of the same run. -/
def anomalyRun20Result : AnomalyResult :=
  match detect_anomalies flagTwoEngine datedBatch20 with
  | .ok p => p.2
  | .error _ => .insufficient []

/-- The engine component of `detect_anomalies` on 21 dated events. -/
def anomalyRun21Engine : Engine :=
  match detect_anomalies flagTwoEngine datedBatch21 with
  | .ok p => p.1
  | .error _ => initializedEngine

/-- The result component of the same run. -/
def anomalyRun21Result : AnomalyResult :=
  match detect_anomalies flagTwoEngine datedBatch21 with
  | .ok p => p.2
  | .error _ => .insufficient []

/-- Its `total_events` field. -/
def run21Total : Nat := anomalyRun21Result.totalEvents.getD 0

/-- Its `anomalies_detected` field. -/
def run21Detected : Nat := anomalyRun21Result.detectedCount.getD 0

/-- Its `anomaly_rate` field. -/
def run21Rate : ℚ := (anomalyRun21Result.rate).getD 0

/-- Its `anomalies` list. -/
def run21List : List AnomalyEntry := anomalyRun21Result.anomalies

/-- A DBSCAN oracle classifying every sample as noise. -/
def allNoiseDbscan : List (List FeatVal) → List Int :=
  fun X => List.replicate X.length (-1)

/-- A record with age exactly 0 (falsy in Python). -/
def ageZeroEvent : EventRecord := { patient_age := some 0 }

/-- A batch whose mean age is 30 while `ageZeroEvent` has age 0. -/
def ageBatch : List EventRecord := [ageZeroEvent, { patient_age := some 60 }]

/-- An engine whose scaler was fitted to 3 features (not the 7 risk
features). -/
def badWidthEngine : Engine :=
  { initializedEngine with scaler := { nFeatures := some 3 } }

/-- An engine whose scaler is fitted to width 7 but whose classifier is
untrained. -/
def scaledUntrainedEngine : Engine :=
  { initializedEngine with scaler := { nFeatures := some 7 } }

/-- Is this date field a string `pandas.to_datetime` rejects? -/
def DateField.isUnparsableDate : DateField → Bool
  | .unparsable _ => true
  | _ => false

/-- A store whose first artifact is corrupt. -/
def corruptStore : ModelStore :=
  { anomaly_detector_pkl := .corrupt, risk_classifier_pkl := .absent, scaler_pkl := .absent }

/-- A store with no artifacts. -/
def absentStore : ModelStore :=
  { anomaly_detector_pkl := .absent, risk_classifier_pkl := .absent, scaler_pkl := .absent }

/-- A store where only the first artifact is present. -/
def riskAbsentStore : ModelStore :=
  { anomaly_detector_pkl := .stored freshIsolationForest,
    risk_classifier_pkl := .absent, scaler_pkl := .absent }

/-- A store where only the scaler artifact is missing. -/
def scalerAbsentStore : ModelStore :=
  { anomaly_detector_pkl := .stored freshIsolationForest,
    risk_classifier_pkl := .stored freshRandomForestClassifier, scaler_pkl := .absent }

/-- A store where only the scaler artifact is corrupt. -/
def scalerCorruptStore : ModelStore :=
  { anomaly_detector_pkl := .stored freshIsolationForest,
    risk_classifier_pkl := .stored freshRandomForestClassifier, scaler_pkl := .corrupt }

/-- A store where the second artifact is corrupt. -/
def riskCorruptStore : ModelStore :=
  { anomaly_detector_pkl := .stored freshIsolationForest,
    risk_classifier_pkl := .corrupt, scaler_pkl := .absent }

/-- A store with all three artifacts present. -/
def fullStore : ModelStore :=
  { anomaly_detector_pkl := .stored freshIsolationForest,
    risk_classifier_pkl := .stored freshRandomForestClassifier,
    scaler_pkl := .stored { nFeatures := some 7 } }

/-! ## Shared lemmas -/

/- The Batteries rational-arithmetic primitives are `@[irreducible]`, which
blocks the `decide`/`rfl` evaluation of the concrete counterexamples and
witnesses below.  `unseal` restores their ordinary reducibility for the rest
of the file; the kernel ignores reducibility attributes, so nothing about the
trust story changes. -/
unseal Rat.add Rat.mul Rat.inv Rat.ofScientific Rat.sub

theorem padTo_length (n : Nat) (dflt : α) (l : List α) : (padTo n dflt l).length = n := by
  simp [padTo]
  omega

@[simp] theorem riskFeatures_length (e : EventRecord) : (riskFeatures e).length = 7 := rfl

theorem nan_not_mem_riskFeatures (e : EventRecord) : FeatVal.nan ∉ riskFeatures e := by
  simp [riskFeatures]

theorem eventFeatures_error_iff (e : EventRecord) (err : EngineError) :
    eventFeatures e = .error err ↔
      err = .dateParseError ∧ ∃ s, e.event_date = .unparsable s := by
  cases h : e.event_date with
  | missing => simp [eventFeatures, daysSinceEvent, h]
  | unparsable s => simp [eventFeatures, daysSinceEvent, h, eq_comm]
  | parsed d => simp [eventFeatures, daysSinceEvent, h]

theorem eventFeatures_ok_length (e : EventRecord) (v : List FeatVal)
    (h : eventFeatures e = .ok v) : v.length = 7 := by
  cases hd : e.event_date with
  | missing => simp [eventFeatures, daysSinceEvent, hd] at h; simp [← h]
  | unparsable s => simp [eventFeatures, daysSinceEvent, hd] at h
  | parsed d => simp [eventFeatures, daysSinceEvent, hd] at h; simp [← h]

theorem eventFeatures_missing (e : EventRecord) (h : e.event_date = .missing) :
    eventFeatures e =
      .ok [ .num (encode_severity (e.severity.getD "mild")),
            .num (encode_outcome (e.outcome.getD "unknown")),
            .num (encode_age_group (e.patient_age.getD 0)),
            .num (if e.required_hospitalization then 1 else 0),
            .num (if e.life_threatening then 1 else 0),
            .num (e.symptoms.length : ℚ),
            .nan ] := by
  simp [eventFeatures, daysSinceEvent, h]

theorem extractEventFeatures_error_iff (events : List EventRecord) :
    ∀ err, extractEventFeatures events = .error err ↔
      err = .dateParseError ∧ ∃ e ∈ events, ∃ s, e.event_date = .unparsable s := by
  induction events with
  | nil => intro err; simp [extractEventFeatures]
  | cons e rest ih =>
    intro err
    simp only [extractEventFeatures, List.mem_cons]
    cases hf : eventFeatures e with
    | error err2 =>
      obtain ⟨he2, s, hs⟩ := (eventFeatures_error_iff e err2).mp hf
      subst he2
      constructor
      · intro h
        injection h with h2
        exact ⟨h2.symm, e, Or.inl rfl, s, hs⟩
      · rintro ⟨rfl, _⟩
        rfl
    | ok v =>
      cases hr : extractEventFeatures rest with
      | error err3 =>
        obtain ⟨he3, e2, he2, hs⟩ := (ih err3).mp hr
        subst he3
        constructor
        · intro h
          injection h with h2
          exact ⟨h2.symm, e2, Or.inr he2, hs⟩
        · rintro ⟨rfl, _⟩
          rfl
      | ok vs =>
        constructor
        · intro h
          cases h
        · rintro ⟨rfl, e2, he2, s, hs⟩
          rcases he2 with rfl | he2
          · rw [(eventFeatures_error_iff e2 .dateParseError).mpr ⟨rfl, s, hs⟩] at hf
            cases hf
          · have h2 : extractEventFeatures rest = .error .dateParseError :=
              (ih .dateParseError).mpr ⟨rfl, e2, he2, s, hs⟩
            rw [hr] at h2
            cases h2

theorem extractEventFeatures_mem (events : List EventRecord) (X : List (List FeatVal))
    (hX : extractEventFeatures events = .ok X) (e : EventRecord) (he : e ∈ events) :
    ∃ v, eventFeatures e = .ok v ∧ v ∈ X := by
  induction events generalizing X with
  | nil => cases he
  | cons e2 rest ih =>
    simp only [extractEventFeatures] at hX
    cases hf : eventFeatures e2 with
    | error err => rw [hf] at hX; cases hX
    | ok v =>
      rw [hf] at hX
      cases hr : extractEventFeatures rest with
      | error err => rw [hr] at hX; cases hX
      | ok vs =>
        rw [hr] at hX
        injection hX with hX
        rcases List.mem_cons.mp he with rfl | he2
        · exact ⟨v, hf, by rw [← hX]; exact List.mem_cons_self v vs⟩
        · obtain ⟨w, hw, hwm⟩ := ih vs hr he2
          exact ⟨w, hw, by rw [← hX]; exact List.mem_cons_of_mem v hwm⟩

theorem extractEventFeatures_rows (events : List EventRecord) (X : List (List FeatVal))
    (hX : extractEventFeatures events = .ok X) :
    ∀ v ∈ X, v.length = 7 := by
  induction events generalizing X with
  | nil =>
    simp only [extractEventFeatures] at hX
    injection hX with hX
    simp [← hX]
  | cons e rest ih =>
    simp only [extractEventFeatures] at hX
    cases hf : eventFeatures e with
    | error err => rw [hf] at hX; cases hX
    | ok v =>
      rw [hf] at hX
      cases hr : extractEventFeatures rest with
      | error err => rw [hr] at hX; cases hX
      | ok vs =>
        rw [hr] at hX
        injection hX with hX
        intro w hw
        rw [← hX] at hw
        rcases List.mem_cons.mp hw with rfl | hw2
        · exact eventFeatures_ok_length e w hf
        · exact ih vs hr w hw2

theorem roundHalfEven_bounds (q : ℚ) : (⌊q⌋ : ℚ) ≤ (roundHalfEven q : ℚ) ∧
    (roundHalfEven q : ℚ) ≤ (⌊q⌋ : ℚ) + 1 := by
  unfold roundHalfEven
  split
  · exact ⟨le_refl _, by norm_num⟩
  · split
    · constructor <;> push_cast <;> linarith
    · split
      · exact ⟨le_refl _, by norm_num⟩
      · constructor <;> push_cast <;> linarith

theorem roundTo3_bounds (q : ℚ) (h0 : 0 ≤ q) (h1 : q ≤ 1) :
    0 ≤ roundTo3 q ∧ roundTo3 q ≤ 1 := by
  unfold roundTo3
  have hb := roundHalfEven_bounds (q * 1000)
  have hf0 : (0 : ℚ) ≤ (⌊q * 1000⌋ : ℚ) := by
    have : (0 : ℤ) ≤ ⌊q * 1000⌋ := Int.floor_nonneg.mpr (by linarith)
    exact_mod_cast this
  have hf1 : (⌊q * 1000⌋ : ℚ) ≤ 1000 := by
    have : (⌊q * 1000⌋ : ℚ) ≤ q * 1000 := Int.floor_le _
    linarith
  have hf1i : (⌊q * 1000⌋ : ℤ) ≤ 1000 := by exact_mod_cast hf1
  constructor
  · have : (0 : ℚ) ≤ (roundHalfEven (q * 1000) : ℚ) := le_trans hf0 hb.1
    positivity
  · rw [div_le_one (by norm_num)]
    -- the rounded value is an integer at most ⌊q*1000⌋ + 1; when it exceeds
    -- 1000 the fraction branch cannot have fired, so it is ⌊q*1000⌋ ≤ 1000
    rcases lt_or_le (⌊q * 1000⌋ : ℤ) 1000 with hlt | hge
    · have : (roundHalfEven (q * 1000) : ℚ) ≤ (⌊q * 1000⌋ : ℚ) + 1 := hb.2
      have h2 : ((⌊q * 1000⌋ : ℚ) + 1) ≤ 1000 := by
        have : (⌊q * 1000⌋ : ℤ) + 1 ≤ 1000 := by omega
        exact_mod_cast this
      linarith
    · have hfeq : (⌊q * 1000⌋ : ℤ) = 1000 := le_antisymm hf1i hge
      have hqe : q * 1000 = 1000 := by
        have hle : (1000 : ℚ) ≤ q * 1000 := by
          have := Int.floor_le (q * 1000)
          rw [hfeq] at this
          exact_mod_cast this
        linarith
      unfold roundHalfEven
      rw [hqe]
      norm_num

theorem dedup_length_two (l : List Nat) (hsub : ∀ x ∈ l, x = 0 ∨ x = 1)
    (h0 : 0 ∈ l) (h1 : 1 ∈ l) : l.dedup.length = 2 := by
  have hset : l.toFinset = {0, 1} := by
    ext x
    simp only [List.mem_toFinset, Finset.mem_insert, Finset.mem_singleton]
    constructor
    · intro hx
      exact hsub x hx
    · rintro (rfl | rfl)
      · exact h0
      · exact h1
  have := List.card_toFinset l
  rw [hset] at this
  simp at this
  omega

theorem transform_riskFeatures (eng : Engine) (e : EventRecord)
    (h : eng.scaler.nFeatures = some 7) :
    eng.scaler.transform (riskFeatures e) = .ok (riskFeatures e) := by
  simp [StandardScaler.transform, h, nan_not_mem_riskFeatures]

theorem mlTry_ok_method (eng : Engine) (fn : List FeatVal) (r : RiskAssessment)
    (h : mlTry eng fn = .ok r) : r.method = none := by
  unfold mlTry at h
  split at h
  · cases h
  · split at h
    · cases h
    · injection h with h
      rw [← h]

theorem sevContribution_nonneg (e : EventRecord) : 0 ≤ sevContribution e := by
  unfold sevContribution
  split <;> try norm_num
  split <;> try norm_num
  split <;> norm_num

theorem hospContribution_nonneg (e : EventRecord) : 0 ≤ hospContribution e := by
  unfold hospContribution
  split <;> norm_num

theorem ltContribution_nonneg (e : EventRecord) : 0 ≤ ltContribution e := by
  unfold ltContribution
  split <;> norm_num

theorem ageContribution_nonneg (e : EventRecord) : 0 ≤ ageContribution e := by
  unfold ageContribution
  split <;> norm_num

theorem symptomContribution_nonneg (e : EventRecord) : 0 ≤ symptomContribution e := by
  unfold symptomContribution
  split <;> norm_num

theorem calculate_rule_based_risk_eq (e : EventRecord) :
    calculate_rule_based_risk e =
      min (sevContribution e + hospContribution e + ltContribution e +
        ageContribution e + symptomContribution e) 1 := by
  unfold calculate_rule_based_risk sevContribution hospContribution ltContribution
    ageContribution symptomContribution
  ring_nf

theorem fitTransform_nan (X : List (List FeatVal))
    (h : ∃ row ∈ X, FeatVal.nan ∈ row) :
    StandardScaler.fitTransform X = .error .nanInput := by
  unfold StandardScaler.fitTransform
  rw [if_pos h]

theorem predictProba_wellshaped (c : RandomForestClassifier) (fn : List FeatVal)
    (hlen : fn.length = 7) (hnan : FeatVal.nan ∉ fn) (nc : Nat)
    (hfit : c.fitted = some (7, nc)) :
    c.predictProba fn = .ok (padTo nc 0 (c.probaFn fn)) := by
  unfold RandomForestClassifier.predictProba
  simp only [hfit]
  rw [if_neg (by simp [hlen]), if_neg hnan]

theorem mlTry_wellshaped (eng : Engine) (fn : List FeatVal)
    (hlen : fn.length = 7) (hnan : FeatVal.nan ∉ fn) (nc : Nat)
    (hfit : eng.risk_classifier.fitted = some (7, nc)) (hnc : 2 ≤ nc) :
    ∃ r, mlTry eng fn = .ok r ∧ r.method = none := by
  unfold mlTry
  have hg := List.get?_eq_get
    (show 1 < (padTo nc 0 (eng.risk_classifier.probaFn fn)).length by
      rw [padTo_length]; omega)
  simp only [predictProba_wellshaped eng.risk_classifier fn hlen hnan nc hfit, hg]
  exact ⟨_, rfl, rfl⟩

theorem mlTry_faulty (eng : Engine) (fn : List FeatVal)
    (hlen : fn.length = 7) (hnan : FeatVal.nan ∉ fn)
    (hf : classifierFaulty eng) : ∃ err, mlTry eng fn = .error err := by
  unfold mlTry
  unfold classifierFaulty at hf
  cases hfit : eng.risk_classifier.fitted with
  | none =>
    have hp : eng.risk_classifier.predictProba fn = .error .notFitted := by
      unfold RandomForestClassifier.predictProba
      rw [hfit]
    rw [hp]
    exact ⟨.notFitted, rfl⟩
  | some p =>
    obtain ⟨nf, nc⟩ := p
    rw [hfit] at hf
    by_cases hnf : nf = 7
    · subst hnf
      have hnc : nc < 2 := by
        rcases hf with hf | hf
        · exact absurd rfl hf
        · exact hf
      have hg : (padTo nc 0 (eng.risk_classifier.probaFn fn)).get? 1 = none :=
        List.get?_len_le (by rw [padTo_length]; omega)
      simp only [predictProba_wellshaped eng.risk_classifier fn hlen hnan nc hfit, hg]
      exact ⟨.indexError, rfl⟩
    · have hp : eng.risk_classifier.predictProba fn = .error .featureMismatch := by
        unfold RandomForestClassifier.predictProba
        simp only [hfit]
        rw [if_pos (by omega)]
      simp only [hp]
      exact ⟨.featureMismatch, rfl⟩

theorem fitTransform_ok_inv (X : List (List FeatVal)) (sc : StandardScaler)
    (Xn : List (List FeatVal)) (h : StandardScaler.fitTransform X = .ok (sc, Xn)) :
    ∃ row rest, X = row :: rest ∧ Xn = row :: rest ∧
      sc = { nFeatures := some row.length } := by
  cases X with
  | nil =>
    unfold StandardScaler.fitTransform at h
    simp at h
  | cons row rest =>
    unfold StandardScaler.fitTransform at h
    split at h
    · cases h
    · injection h with h2
      have h3 := congrArg Prod.fst h2
      have h4 := congrArg Prod.snd h2
      simp only at h3 h4
      exact ⟨row, rest, rfl, h4.symm, h3.symm⟩

theorem riskLabel_zero_or_one (e : EventRecord) : riskLabel e = 0 ∨ riskLabel e = 1 := by
  unfold riskLabel
  split
  · exact Or.inr rfl
  · exact Or.inl rfl

/-! ## Claim C5 -/

/-- Claim C5 — (confirmed): signal tiering is a strict priority cascade —
death-rate > 0.02 yields "critical" regardless of the other rates; otherwise
hospitalization-rate > 0.15 or recent-severe-rate > 0.3 yields "high";
otherwise severe-rate > 0.20 yields "moderate"; otherwise "low"; and each tier
maps to its fixed recommendation string. -/
theorem c5_signal_tier_cascade (severe_rate hosp_rate death_rate recent_rate : ℚ) :
    (death_rate > 0.02 →
      classify_signal_type severe_rate hosp_rate death_rate recent_rate = "critical") ∧
    (death_rate ≤ 0.02 → (hosp_rate > 0.15 ∨ recent_rate > 0.3) →
      classify_signal_type severe_rate hosp_rate death_rate recent_rate = "high") ∧
    (death_rate ≤ 0.02 → hosp_rate ≤ 0.15 → recent_rate ≤ 0.3 → severe_rate > 0.20 →
      classify_signal_type severe_rate hosp_rate death_rate recent_rate = "moderate") ∧
    (death_rate ≤ 0.02 → hosp_rate ≤ 0.15 → recent_rate ≤ 0.3 → severe_rate ≤ 0.20 →
      classify_signal_type severe_rate hosp_rate death_rate recent_rate = "low") ∧
    generate_signal_recommendation "critical" =
      "URGENT: Consider immediate recall or suspension. Convene safety review committee." ∧
    generate_signal_recommendation "high" =
      "HIGH PRIORITY: Detailed investigation required. Consider risk mitigation measures." ∧
    generate_signal_recommendation "moderate" =
      "MODERATE: Monitor closely. Review product labeling and prescribing information." ∧
    generate_signal_recommendation "low" =
      "LOW: Continue monitoring. Consider additional post-market surveillance." := by
  refine ⟨?_, ?_, ?_, ?_, by decide, by decide, by decide, by decide⟩
  · intro h
    unfold classify_signal_type
    rw [if_pos h]
  · intro h h2
    unfold classify_signal_type
    rw [if_neg (not_lt.mpr h), if_pos h2]
  · intro h h2 h3 h4
    unfold classify_signal_type
    rw [if_neg (not_lt.mpr h), if_neg (by push_neg; exact ⟨h2, h3⟩), if_pos h4]
  · intro h h2 h3 h4
    unfold classify_signal_type
    rw [if_neg (not_lt.mpr h), if_neg (by push_neg; exact ⟨h2, h3⟩),
      if_neg (not_lt.mpr h4)]

/-- Witness for C5: a death rate of 0.03 forces "critical" whatever the other
rates are, and rates below every threshold give "low". -/
theorem c5_witness :
    classify_signal_type 0.9 0.9 0.03 0.9 = "critical" ∧
    classify_signal_type 0.3 0.2 0.01 0.2 = "high" ∧
    classify_signal_type 0.21 0.1 0.01 0.2 = "moderate" ∧
    classify_signal_type 0.1 0.1 0.01 0.1 = "low" :=
  ⟨(c5_signal_tier_cascade 0.9 0.9 0.03 0.9).1 (by norm_num),
   (c5_signal_tier_cascade 0.3 0.2 0.01 0.2).2.1 (by norm_num) (Or.inl (by norm_num)),
   (c5_signal_tier_cascade 0.21 0.1 0.01 0.2).2.2.1 (by norm_num) (by norm_num)
     (by norm_num) (by norm_num),
   (c5_signal_tier_cascade 0.1 0.1 0.01 0.1).2.2.2.1 (by norm_num) (by norm_num)
     (by norm_num) (by norm_num)⟩

/-! ## Claim C6 -/

/-- Claim C6 — (confirmed): the rule-based risk score is the clamp to [0,1] of the
sum of the listed contributions, hence always lies in [0,1] and is monotone in
each qualifying contribution; and the worked example (life-threatening
severity, hospitalization, life-threatening flag, age 80, six symptoms) scores
exactly 1 at level "critical".
(`unseal` lifts the `irreducible` marking of the Batteries rational-arithmetic
primitives so that `decide` can evaluate the concrete example; the kernel
itself ignores reducibility, so the proof is checked as usual.) -/
theorem c6_rule_based_risk :
    (∀ e : EventRecord, calculate_rule_based_risk e =
      max 0 (min (sevContribution e + hospContribution e + ltContribution e +
        ageContribution e + symptomContribution e) 1)) ∧
    (∀ e : EventRecord,
      0 ≤ calculate_rule_based_risk e ∧ calculate_rule_based_risk e ≤ 1) ∧
    (∀ e1 e2 : EventRecord, sevContribution e1 ≤ sevContribution e2 →
      hospContribution e1 ≤ hospContribution e2 →
      ltContribution e1 ≤ ltContribution e2 →
      ageContribution e1 ≤ ageContribution e2 →
      symptomContribution e1 ≤ symptomContribution e2 →
      calculate_rule_based_risk e1 ≤ calculate_rule_based_risk e2) ∧
    (calculate_rule_based_risk severeExample = 1 ∧
      classify_risk_level (calculate_rule_based_risk severeExample) = "critical") := by
  have hsum : ∀ e : EventRecord, 0 ≤ sevContribution e + hospContribution e +
      ltContribution e + ageContribution e + symptomContribution e := by
    intro e
    have := sevContribution_nonneg e
    have := hospContribution_nonneg e
    have := ltContribution_nonneg e
    have := ageContribution_nonneg e
    have := symptomContribution_nonneg e
    linarith
  refine ⟨?_, ?_, ?_, by decide, by decide⟩
  · intro e
    rw [calculate_rule_based_risk_eq]
    exact (max_eq_right (le_min (hsum e) (by norm_num))).symm
  · intro e
    rw [calculate_rule_based_risk_eq]
    exact ⟨le_min (hsum e) (by norm_num), min_le_right _ _⟩
  · intro e1 e2 h1 h2 h3 h4 h5
    rw [calculate_rule_based_risk_eq, calculate_rule_based_risk_eq]
    exact min_le_min (by linarith) le_rfl

/-- Witness for C6: the monotonicity conjunct applied to the all-default
record versus the worked example, and the bounds applied to a concrete
record. -/
theorem c6_witness :
    calculate_rule_based_risk emptyEvent ≤ calculate_rule_based_risk severeExample ∧
    (0 ≤ calculate_rule_based_risk mildEvent ∧ calculate_rule_based_risk mildEvent ≤ 1) :=
  ⟨c6_rule_based_risk.2.2.1 emptyEvent severeExample (by decide) (by decide) (by decide)
      (by decide) (by decide),
    c6_rule_based_risk.2.1 mildEvent⟩

/-! ## Claim C7 -/

/-- Claim C7 — (confirmed): whenever `detect_anomalies` returns a result on a batch
of at least 20 records, its `anomalies` list has at most 10 entries and is
sorted in ascending order of anomaly score. -/
theorem c7_anomalies_sorted_capped (eng : Engine) (events : List EventRecord)
    (x : Engine × AnomalyResult) (hlen : 20 ≤ events.length)
    (h : detect_anomalies eng events = .ok x) :
    x.2.anomalies.length ≤ 10 ∧
    x.2.anomalies.Pairwise (fun a b => a.anomaly_score ≤ b.anomaly_score) := by
  have hgate : ¬ events.length < 20 := by omega
  unfold detect_anomalies at h
  rw [if_neg hgate] at h
  split at h
  · cases h
  · split at h
    · cases h
    · injection h with h
      haveI htot : IsTotal AnomalyEntry (fun a b => a.anomaly_score ≤ b.anomaly_score) :=
        ⟨fun a b => le_total a.anomaly_score b.anomaly_score⟩
      haveI htr : IsTrans AnomalyEntry (fun a b => a.anomaly_score ≤ b.anomaly_score) :=
        ⟨fun _ _ _ hab hbc => le_trans hab hbc⟩
      rw [← h]
      refine ⟨?_, ?_⟩
      · simp [AnomalyResult.anomalies]
      · simp only [AnomalyResult.anomalies]
        exact List.Pairwise.take (List.sorted_insertionSort
          (fun a b : AnomalyEntry => a.anomaly_score ≤ b.anomaly_score) _)

/-- The concrete 20-event anomaly run used as the C7 witness input. -/
def anomalyRun20 : Engine × AnomalyResult :=
  (detect_anomalies flagTwoEngine datedBatch20).toOption.getD
    (initializedEngine, .insufficient [])

/-- Witness for C7: the theorem applied to a concrete 20-event batch on which
`detect_anomalies` succeeds. -/
theorem c7_witness :
    anomalyRun20.2.anomalies.length ≤ 10 ∧
    anomalyRun20.2.anomalies.Pairwise (fun a b => a.anomaly_score ≤ b.anomaly_score) :=
  c7_anomalies_sorted_capped flagTwoEngine datedBatch20 anomalyRun20
    (by decide) (by rfl)

/-! ## Claim C8 -/

/-- Claim C8 — (confirmed): batches strictly below the minimum sizes (10 for
patterns, 5 for signals, 20 for anomalies) make each operation return its
explicit insufficient-data value — with an empty pattern/anomaly list where
applicable — rather than an error, and at or above the minimum (in particular
at exactly the minimum) the insufficient-data shape is never returned. -/
theorem c8_minimum_batch_gates :
    (∀ (eng : Engine) (dbscan : List (List FeatVal) → List Int)
      (events : List EventRecord), events.length < 10 →
      detect_adverse_event_patterns eng dbscan events = .ok (eng, .insufficient [])) ∧
    (∀ (eng : Engine) (dbscan : List (List FeatVal) → List Int)
      (events : List EventRecord) (eng2 : Engine) (ps : List ClusterPattern),
      10 ≤ events.length →
      detect_adverse_event_patterns eng dbscan events ≠ .ok (eng2, .insufficient ps)) ∧
    (∀ (medicine_id : String) (events : List EventRecord), events.length < 5 →
      detect_safety_signals medicine_id events = .ok .insufficient) ∧
    (∀ (medicine_id : String) (events : List EventRecord), 5 ≤ events.length →
      detect_safety_signals medicine_id events ≠ .ok .insufficient) ∧
    (∀ (eng : Engine) (events : List EventRecord), events.length < 20 →
      detect_anomalies eng events = .ok (eng, .insufficient [])) ∧
    (∀ (eng : Engine) (events : List EventRecord) (eng2 : Engine)
      (anoms : List AnomalyEntry), 20 ≤ events.length →
      detect_anomalies eng events ≠ .ok (eng2, .insufficient anoms)) := by
  refine ⟨?_, ?_, ?_, ?_, ?_, ?_⟩
  · intro eng dbscan events h
    unfold detect_adverse_event_patterns
    rw [if_pos h]
  · intro eng dbscan events eng2 ps h hcontra
    unfold detect_adverse_event_patterns at hcontra
    rw [if_neg (by omega)] at hcontra
    split at hcontra
    · cases hcontra
    · split at hcontra
      · cases hcontra
      · simp at hcontra
  · intro medicine_id events h
    unfold detect_safety_signals
    rw [if_pos h]
  · intro medicine_id events h hcontra
    unfold detect_safety_signals at hcontra
    rw [if_neg (by omega)] at hcontra
    split at hcontra
    · cases hcontra
    · dsimp only at hcontra
      split at hcontra
      · cases hcontra
      · cases hcontra
  · intro eng events h
    unfold detect_anomalies
    rw [if_pos h]
  · intro eng events eng2 anoms h hcontra
    unfold detect_anomalies at hcontra
    rw [if_neg (by omega)] at hcontra
    split at hcontra
    · cases hcontra
    · split at hcontra
      · cases hcontra
      · simp at hcontra

/-- Witness for C8: the gates exercised at 9/10, 4/5, and 19/20 records. -/
theorem c8_witness :
    detect_adverse_event_patterns initializedEngine allNoiseDbscan
      (List.replicate 9 mildEvent) = .ok (initializedEngine, .insufficient []) ∧
    detect_adverse_event_patterns initializedEngine allNoiseDbscan
      (List.replicate 10 mildEvent) ≠ .ok (initializedEngine, .insufficient []) ∧
    detect_safety_signals "med1" (List.replicate 4 mildEvent) = .ok .insufficient ∧
    detect_safety_signals "med1" (List.replicate 5 mildEvent) ≠ .ok .insufficient ∧
    detect_anomalies initializedEngine (List.replicate 19 mildEvent) =
      .ok (initializedEngine, .insufficient []) ∧
    detect_anomalies initializedEngine (List.replicate 20 mildEvent) ≠
      .ok (initializedEngine, .insufficient []) :=
  ⟨c8_minimum_batch_gates.1 initializedEngine allNoiseDbscan _ (by decide),
   c8_minimum_batch_gates.2.1 initializedEngine allNoiseDbscan _ initializedEngine []
     (by decide),
   c8_minimum_batch_gates.2.2.1 "med1" _ (by decide),
   c8_minimum_batch_gates.2.2.2.1 "med1" _ (by decide),
   c8_minimum_batch_gates.2.2.2.2.1 initializedEngine _ (by decide),
   c8_minimum_batch_gates.2.2.2.2.2 initializedEngine _ initializedEngine [] (by decide)⟩

/-! ## Claim C1 -/

/-- Claim C1 counterexample —: the claim says no input and no engine state makes
`predict_risk_score` raise a user-visible error, but on a freshly initialized
engine (no persisted models, scaler unfitted) the `scaler.transform` call —
which sits *before* the `try:`/`except:` pair — raises `NotFittedError`, which
propagates to the caller instead of being replaced by the rule-based
fallback. -/
theorem c1_counterexample :
    predict_risk_score initializedEngine emptyEvent = .error .notFitted := rfl

/-- Claim C1 as amended —: only faults of the classifier step inside the `try:`
(untrained classifier, feature-width mismatch, missing class-1 column) are
caught and replaced by the rule-based assessment tagged "rule_based" — but
normalizer faults are not caught: an unfitted scaler raises `NotFittedError`
and a scaler fitted to a width other than 7 raises a feature-shape error, both
propagating to the caller. -/
theorem c1_risk_fallback_amended (eng : Engine) (e : EventRecord) :
    (eng.scaler.nFeatures = none →
      predict_risk_score eng e = .error .notFitted) ∧
    (∀ n, eng.scaler.nFeatures = some n → n ≠ 7 →
      predict_risk_score eng e = .error .featureMismatch) ∧
    (eng.scaler.nFeatures = some 7 →
      ∃ r, predict_risk_score eng e = .ok r ∧
        (classifierFaulty eng → r.method = some "rule_based")) := by
  refine ⟨?_, ?_, ?_⟩
  · intro h
    unfold predict_risk_score
    have ht : eng.scaler.transform (riskFeatures e) = .error .notFitted := by
      unfold StandardScaler.transform
      simp only [h]
    simp only [ht]
  · intro n hn hne
    unfold predict_risk_score
    have ht : eng.scaler.transform (riskFeatures e) = .error .featureMismatch := by
      unfold StandardScaler.transform
      simp only [hn]
      rw [if_pos (by simp; omega)]
    simp only [ht]
  · intro h
    unfold predict_risk_score
    simp only [transform_riskFeatures eng e h]
    cases hml : mlTry eng (riskFeatures e) with
    | ok r =>
      refine ⟨r, rfl, fun hf => ?_⟩
      obtain ⟨err, herr⟩ := mlTry_faulty eng (riskFeatures e) rfl
        (nan_not_mem_riskFeatures e) hf
      rw [hml] at herr
      cases herr
    | error err =>
      exact ⟨fallbackAssessment e, rfl, fun _ => rfl⟩

/-- Witness for C1: the unfitted-scaler branch, the wrong-width branch, and
the fitted-scaler/untrained-classifier branch at concrete engines. -/
theorem c1_witness :
    predict_risk_score initializedEngine mildEvent = .error .notFitted ∧
    predict_risk_score badWidthEngine mildEvent = .error .featureMismatch ∧
    (∃ r, predict_risk_score scaledUntrainedEngine mildEvent = .ok r ∧
      r.method = some "rule_based") := by
  refine ⟨(c1_risk_fallback_amended initializedEngine mildEvent).1 rfl,
    (c1_risk_fallback_amended badWidthEngine mildEvent).2.1 3 rfl (by decide), ?_⟩
  obtain ⟨r, hr, hm⟩ := (c1_risk_fallback_amended scaledUntrainedEngine mildEvent).2.2 rfl
  exact ⟨r, hr, hm trivial⟩

/-! ## Claim C2 -/

/-- Claim C2 counterexample —: the claim says a record with a *missing*
`event_date` fails feature encoding with an explicit date error, but the code
produces a feature vector for it — `pd.to_datetime(None)` is `NaT`,
`(now - NaT).days` is NaN, and the encoding succeeds with a NaN recency
feature. -/
theorem c2_counterexample :
    eventFeatures { event_date := .missing } =
      .ok [.num 1, .num 0, .num 1, .num 0, .num 0, .num 0, .nan] := rfl

/-- Claim C2 as amended —: a record with an *unparsable* `event_date` fails the
encoding step with the date-parse error, and a batch fails with that error
exactly when it contains such a record; a record with a *missing* `event_date`
instead yields a 7-entry feature vector whose last (`days_since_event`) entry
is NaN, and the batch then fails later — `detect_anomalies` on such a batch
(of at least 20 records, none unparsable) raises the Input-contains-NaN
error of the normalizer rather than a date error. -/
theorem c2_invalid_date_amended :
    (∀ (e : EventRecord) (s : String), e.event_date = .unparsable s →
      eventFeatures e = .error .dateParseError) ∧
    (∀ (events : List EventRecord) (err : EngineError),
      extractEventFeatures events = .error err ↔
        (err = .dateParseError ∧ ∃ e ∈ events, ∃ s, e.event_date = .unparsable s)) ∧
    (∀ e : EventRecord, e.event_date = .missing →
      ∃ v, eventFeatures e = .ok v ∧ v.length = 7 ∧ v.getLast? = some .nan) ∧
    (∀ (eng : Engine) (events : List EventRecord), 20 ≤ events.length →
      (∀ e ∈ events, e.event_date.isUnparsableDate = false) →
      (∃ e ∈ events, e.event_date = .missing) →
      detect_anomalies eng events = .error .nanInput) := by
  refine ⟨?_, ?_, ?_, ?_⟩
  · intro e s h
    exact (eventFeatures_error_iff e _).mpr ⟨rfl, s, h⟩
  · intro events err
    exact extractEventFeatures_error_iff events err
  · intro e h
    exact ⟨_, eventFeatures_missing e h, rfl, rfl⟩
  · rintro eng events hlen hsafe ⟨e, he, hmiss⟩
    cases hx : extractEventFeatures events with
    | error err =>
      obtain ⟨-, e2, he2, s, hs⟩ := (extractEventFeatures_error_iff events err).mp hx
      have := hsafe e2 he2
      rw [hs] at this
      cases this
    | ok X =>
      obtain ⟨v, hv, hvX⟩ := extractEventFeatures_mem events X hx e he
      have hnan : FeatVal.nan ∈ v := by
        rw [eventFeatures_missing e hmiss] at hv
        injection hv with hv
        rw [← hv]
        simp
      unfold detect_anomalies
      rw [if_neg (by omega)]
      simp only [hx, fitTransform_nan X ⟨v, hvX, hnan⟩]

/-- Witness for C2: an unparsable date fails encoding; a missing date encodes
to a NaN-carrying vector; a 20-record batch whose first record misses its date
makes `detect_anomalies` fail at normalization with the NaN error. -/
theorem c2_witness :
    eventFeatures { event_date := .unparsable "not a date" } =
      .error .dateParseError ∧
    (∃ v, eventFeatures { event_date := .missing } = .ok v ∧
      v.length = 7 ∧ v.getLast? = some .nan) ∧
    detect_anomalies initializedEngine missingDateBatch = .error .nanInput :=
  ⟨c2_invalid_date_amended.1 _ "not a date" rfl,
   c2_invalid_date_amended.2.2.1 _ rfl,
   c2_invalid_date_amended.2.2.2 initializedEngine missingDateBatch
     (by decide) (by decide) (by decide)⟩

/-! ## Claim C3 -/

/-- Claim C3 counterexample —: training succeeds on a 5-record all-mild batch
(every label 0), yet the immediately following `predict_risk_score` on a
record drawn from that batch returns the rule-based fallback: the single-class
`predict_proba` row of the classifier has no class-1 entry, the `[1]` index raises
`IndexError` inside the `try:`, and the bare `except:` silently substitutes
the rule-based path — refuting "never returns the rule-based fallback". -/
theorem c3_counterexample :
    (train_models initializedEngine allMildBatch true).toOption.map
        (fun p => p.2.training_samples) = some 5 ∧
    ((train_models initializedEngine allMildBatch true).bind
        (fun p => predict_risk_score p.1 mildEvent)).toOption.map
        (fun r => r.method) = some (some "rule_based") :=
  ⟨by decide, by decide⟩

/-- Claim C3 as amended —: if `train_models` succeeds *and the training labels
contain both classes* (at least one severe-or-hospitalized record and at least
one other), then `predict_risk_score` on any record drawn from the training
set takes the ML path — it returns an assessment whose `method` tag is absent,
never the rule-based fallback. -/
theorem c3_train_then_predict_amended (eng : Engine) (data : List EventRecord)
    (eng2 : Engine) (s : TrainSummary)
    (htrain : train_models eng data true = .ok (eng2, s))
    (h1 : ∃ e ∈ data, riskLabel e = 1) (h0 : ∃ e ∈ data, riskLabel e = 0) :
    ∀ e ∈ data, ∃ r, predict_risk_score eng2 e = .ok r ∧ r.method = none := by
  intro e _he
  unfold train_models at htrain
  cases hx : extractEventFeatures data with
  | error err =>
    rw [hx] at htrain
    cases htrain
  | ok X =>
    simp only [hx] at htrain
    cases hft : StandardScaler.fitTransform X with
    | error err =>
      rw [hft] at htrain
      cases htrain
    | ok p =>
      obtain ⟨scaler2, Xn⟩ := p
      simp only [hft, if_true] at htrain
      -- identify the trained engine
      injection htrain with hpair
      have heng : eng2 =
          { anomaly_detector := eng.anomaly_detector.fit Xn,
            risk_classifier := eng.risk_classifier.fit Xn (data.map riskLabel),
            scaler := scaler2 } := by
        have := congrArg Prod.fst hpair
        simpa using this.symm
      -- the refit scaler carries width 7
      obtain ⟨row, rest, hXeq, hXn, hsc⟩ := fitTransform_ok_inv X scaler2 Xn hft
      have hrow7 : row.length = 7 :=
        extractEventFeatures_rows data X hx row (hXeq ▸ List.mem_cons_self row rest)
      -- the classifier knows 7 features and 2 classes
      have hclasses : (data.map riskLabel).dedup.length = 2 := by
        apply dedup_length_two
        · intro x hxm
          obtain ⟨e2, -, rfl⟩ := List.mem_map.mp hxm
          exact riskLabel_zero_or_one e2
        · obtain ⟨e0, he0, hl0⟩ := h0
          exact hl0 ▸ List.mem_map_of_mem riskLabel he0
        · obtain ⟨e1, he1, hl1⟩ := h1
          exact hl1 ▸ List.mem_map_of_mem riskLabel he1
      have hfit : eng2.risk_classifier.fitted = some (7, 2) := by
        rw [heng]
        unfold RandomForestClassifier.fit
        simp [hXn, hrow7, hclasses]
      have hsc7 : eng2.scaler.nFeatures = some 7 := by
        rw [heng]
        simp [hsc, hrow7]
      obtain ⟨r, hr, hmeth⟩ := mlTry_wellshaped eng2 (riskFeatures e) rfl
        (nan_not_mem_riskFeatures e) 2 hfit (le_refl 2)
      unfold predict_risk_score
      simp only [transform_riskFeatures eng2 e hsc7, hr]
      exact ⟨r, rfl, hmeth⟩

/-- Witness for C3 (amended): a 5-record batch with both label classes; after
training on it, prediction on a drawn record takes the ML path. -/
theorem c3_witness :
    ∃ r, predict_risk_score mixedTrainedEngine mildEvent = .ok r ∧
      r.method = none :=
  c3_train_then_predict_amended initializedEngine mixedBatch
    mixedTrainedEngine mixedTrainSummary (by rfl)
    ⟨severeTrainEvent, by decide, by decide⟩
    ⟨mildEvent, by decide, by decide⟩
    mildEvent (by decide)

/-! ## Claim C4 -/

/-- Claim C4 counterexample —: the claim says every load failure mode (absent,
corrupt, unreadable artifact) is recovered by fresh untrained models, but
`load_models` catches only `FileNotFoundError` — the unpickling error of a
corrupt artifact propagates out of engine construction. -/
theorem c4_counterexample :
    engine_init corruptStore = .error .unpicklingError := rfl

/-- Claim C4 as amended —: an *absent* artifact (wherever the three sequential
loads first hit one) is recovered by constructing fresh untrained models; a
*corrupt* artifact propagates its load error out of construction; a fully
present store loads as persisted; and a persistence failure during
`train_models` is surfaced to the caller as an error, not swallowed. -/
theorem c4_load_and_persist_amended :
    (∀ store : ModelStore, store.anomaly_detector_pkl = .absent →
      engine_init store = .ok initializedEngine) ∧
    (∀ (store : ModelStore) (ad : IsolationForest),
      store.anomaly_detector_pkl = .stored ad →
      store.risk_classifier_pkl = .absent →
      engine_init store = .ok initializedEngine) ∧
    (∀ (store : ModelStore) (ad : IsolationForest) (rc : RandomForestClassifier),
      store.anomaly_detector_pkl = .stored ad →
      store.risk_classifier_pkl = .stored rc →
      store.scaler_pkl = .absent →
      engine_init store = .ok initializedEngine) ∧
    (∀ store : ModelStore, store.anomaly_detector_pkl = .corrupt →
      engine_init store = .error .unpicklingError) ∧
    (∀ (store : ModelStore) (ad : IsolationForest),
      store.anomaly_detector_pkl = .stored ad →
      store.risk_classifier_pkl = .corrupt →
      engine_init store = .error .unpicklingError) ∧
    (∀ (store : ModelStore) (ad : IsolationForest) (rc : RandomForestClassifier),
      store.anomaly_detector_pkl = .stored ad →
      store.risk_classifier_pkl = .stored rc →
      store.scaler_pkl = .corrupt →
      engine_init store = .error .unpicklingError) ∧
    (∀ (store : ModelStore) (ad : IsolationForest) (rc : RandomForestClassifier)
      (sc : StandardScaler),
      store.anomaly_detector_pkl = .stored ad →
      store.risk_classifier_pkl = .stored rc →
      store.scaler_pkl = .stored sc →
      engine_init store =
        .ok { anomaly_detector := ad, risk_classifier := rc, scaler := sc }) ∧
    (∀ (eng : Engine) (data : List EventRecord) (eng2 : Engine) (s : TrainSummary),
      train_models eng data true = .ok (eng2, s) →
      train_models eng data false = .error .ioError) := by
  refine ⟨?_, ?_, ?_, ?_, ?_, ?_, ?_, ?_⟩
  · intro store h
    unfold engine_init
    simp only [h, joblib_load]
  · intro store ad h1 h2
    unfold engine_init
    simp only [h1, h2, joblib_load]
  · intro store ad rc h1 h2 h3
    unfold engine_init
    simp only [h1, h2, h3, joblib_load]
  · intro store h
    unfold engine_init
    simp only [h, joblib_load]
  · intro store ad h1 h2
    unfold engine_init
    simp only [h1, h2, joblib_load]
  · intro store ad rc h1 h2 h3
    unfold engine_init
    simp only [h1, h2, h3, joblib_load]
  · intro store ad rc sc h1 h2 h3
    unfold engine_init
    simp only [h1, h2, h3, joblib_load]
  · intro eng data eng2 s htrain
    unfold train_models at htrain ⊢
    cases hx : extractEventFeatures data with
    | error err =>
      rw [hx] at htrain
      cases htrain
    | ok X =>
      simp only [hx] at htrain ⊢
      cases hft : StandardScaler.fitTransform X with
      | error err =>
        rw [hft] at htrain
        cases htrain
      | ok p =>
        obtain ⟨scaler2, Xn⟩ := p
        simp only [hft]
        simp

/-- Witness for C4: every branch exercised at a concrete store, and a concrete
successful training run whose persistence failure surfaces. -/
theorem c4_witness :
    engine_init absentStore = .ok initializedEngine ∧
    engine_init riskAbsentStore = .ok initializedEngine ∧
    engine_init scalerAbsentStore = .ok initializedEngine ∧
    engine_init corruptStore = .error .unpicklingError ∧
    engine_init riskCorruptStore = .error .unpicklingError ∧
    engine_init scalerCorruptStore = .error .unpicklingError ∧
    engine_init fullStore =
      .ok { anomaly_detector := freshIsolationForest,
            risk_classifier := freshRandomForestClassifier,
            scaler := { nFeatures := some 7 } } ∧
    train_models initializedEngine mixedBatch false = .error .ioError :=
  ⟨c4_load_and_persist_amended.1 absentStore rfl,
   c4_load_and_persist_amended.2.1 riskAbsentStore freshIsolationForest rfl rfl,
   c4_load_and_persist_amended.2.2.1 scalerAbsentStore freshIsolationForest
     freshRandomForestClassifier rfl rfl rfl,
   c4_load_and_persist_amended.2.2.2.1 corruptStore rfl,
   c4_load_and_persist_amended.2.2.2.2.1 riskCorruptStore freshIsolationForest rfl rfl,
   c4_load_and_persist_amended.2.2.2.2.2.1 scalerCorruptStore freshIsolationForest
     freshRandomForestClassifier rfl rfl rfl,
   c4_load_and_persist_amended.2.2.2.2.2.2.1 fullStore freshIsolationForest
     freshRandomForestClassifier { nFeatures := some 7 } rfl rfl rfl,
   c4_load_and_persist_amended.2.2.2.2.2.2.2 initializedEngine mixedBatch
     mixedTrainedEngine mixedTrainSummary (by rfl)⟩

/-! ## Claim C9 -/

/-- Claim C9 counterexample —: the claim says an age deviating more than 20 years
from the batch mean is called out, but `_explain_anomaly` guards the age check
with the *truthiness* of the patient_age value: a record with age exactly
0 in a batch with mean age 30 (deviation 30 > 20) gets the explanation
"Statistical outlier" with no age callout. -/
theorem c9_counterexample :
    explain_anomaly ageZeroEvent ageBatch = "Statistical outlier" ∧
    |((ageZeroEvent.patient_age.getD 0 : ℚ)) - batchMeanAge ageBatch| > 20 :=
  ⟨by decide, by decide⟩

/-- Claim C9 as amended —: the explanation calls out exactly the applicable
conditions, where the age-deviation condition additionally requires the
`patient_age` field of the record to be present and nonzero; the other three conditions
(life-threatening severity, fatal outcome, more than 8 symptoms) and the
"; "-joining and "Statistical outlier" default are as claimed. -/
theorem c9_explanation_amended (event : EventRecord) (all_events : List EventRecord) :
    explain_anomaly event all_events = explainAmendedSpec event all_events := by
  unfold explain_anomaly explainAmendedSpec
  cases hage : event.patient_age with
  | none => rfl
  | some a =>
    by_cases h1 : a = 0
    · simp [h1]
    · by_cases h2 : |(a : ℚ) - batchMeanAge all_events| > 20
      · simp [h1, h2]
      · simp [h1, h2]

/-! ## Claim C10 -/

/-- Claim C10 counterexample —: on a 21-event batch with 2 flagged records, the
reported `anomaly_rate` is `round(2/21, 3) = 0.095 = 19/200`, which is *not*
equal to `anomalies_detected / total_events = 2/21` — the claim omits the
3-decimal rounding. -/
theorem c10_counterexample :
    (detect_anomalies flagTwoEngine datedBatch21).toOption.map
        (fun p => (p.2.rate, p.2.detectedCount, p.2.totalEvents))
      = some (some (19/200), some 2, some 21) ∧
    (19 : ℚ)/200 ≠ (2 : ℚ)/21 :=
  ⟨by decide, by decide⟩

/-- Claim C10 as amended —: in a successful `detect_anomalies` report on at least
20 records, `total_events` is the batch size, `anomalies_detected` counts all
flagged records before truncation — the returned list holds `min 10 detected`
entries, so `detected` may exceed its length — and `anomaly_rate` equals
`detected / total` *rounded half-to-even to 3 decimal places*, a value always
in [0,1]. -/
theorem c10_rate_amended (eng : Engine) (events : List EventRecord)
    (eng2 : Engine) (t d : Nat) (r : ℚ) (l : List AnomalyEntry)
    (hlen : 20 ≤ events.length)
    (h : detect_anomalies eng events = .ok (eng2, .report t d r l)) :
    t = events.length ∧ d ≤ t ∧ l.length = min 10 d ∧
    r = roundTo3 ((d : ℚ) / (t : ℚ)) ∧ 0 ≤ r ∧ r ≤ 1 := by
  unfold detect_anomalies at h
  rw [if_neg (by omega)] at h
  split at h
  · cases h
  · split at h
    · cases h
    · injection h with h2
      have hsnd := congrArg Prod.snd h2
      simp only at hsnd
      injection hsnd with h_t h_d h_r h_l
      have hdle : d ≤ events.length := by
        rw [← h_d]
        calc (List.filterMap _ _).length ≤ _ := List.length_filterMap_le _ _
          _ ≤ events.length := by
            rw [List.length_zip]
            omega
      have htpos : (0 : ℚ) < (t : ℚ) := by
        rw [← h_t]
        exact_mod_cast (by omega : 0 < events.length)
      have hq0 : 0 ≤ ((d : ℚ) / (t : ℚ)) := by positivity
      have hq1 : ((d : ℚ) / (t : ℚ)) ≤ 1 := by
        rw [div_le_one htpos]
        rw [← h_t]
        exact_mod_cast hdle
      have hreq : r = roundTo3 ((d : ℚ) / (t : ℚ)) := by
        rw [← h_r, ← h_d, ← h_t]
      refine ⟨h_t.symm, h_t ▸ hdle, ?_, hreq, ?_, ?_⟩
      · rw [← h_l, ← h_d]
        simp [List.length_insertionSort]
      · rw [hreq]
        exact (roundTo3_bounds _ hq0 hq1).1
      · rw [hreq]
        exact (roundTo3_bounds _ hq0 hq1).2

/-- Witness for C10: the amended theorem applied to the concrete 21-event run
(2 flagged records, rate 19/200). -/
theorem c10_witness :
    run21Total = datedBatch21.length ∧ run21Detected ≤ run21Total ∧
    run21List.length = min 10 run21Detected ∧
    run21Rate = roundTo3 ((run21Detected : ℚ) / (run21Total : ℚ)) ∧
    0 ≤ run21Rate ∧ run21Rate ≤ 1 :=
  c10_rate_amended flagTwoEngine datedBatch21 anomalyRun21Engine run21Total
    run21Detected run21Rate run21List (by decide) (by rfl)

end AnalyticsEngine
